import Mathlib

/-!
Verification of the CHMS health-metrics and risk-scoring engine.

The Python source is shallowly embedded: visit records become a structure of
optional fields (`none` models a missing/null field), numeric measurements are
modelled as exact rationals, and Python's `round(x, 1)` (round half to even)
is modelled by `round1`. Python truthiness of a numeric field (`if x:` is
false for `None` and `0`) is modelled by `qtruthy`, and of a string field by
`struthy`.
-/

/-- Round half to even to the nearest integer, as Python round does on exact values. -/
def rhe (x : ℚ) : ℤ :=
  if x - ⌊x⌋ < 1/2 then ⌊x⌋
  else if 1/2 < x - ⌊x⌋ then ⌊x⌋ + 1
  else if ⌊x⌋ % 2 = 0 then ⌊x⌋ else ⌊x⌋ + 1

/-- Python round(x, 1): round half to even at one decimal place. -/
def round1 (x : ℚ) : ℚ := (rhe (x * 10) : ℚ) / 10

/-- A visit record as passed to the analytics engine: every field optional,
`none` meaning missing/null (gender and age come from the joined patient row). -/
structure VisitData where
  age : Option ℚ := none
  gender : Option String := none
  bmi : Option ℚ := none
  blood_pressure_systolic : Option ℚ := none
  blood_pressure_diastolic : Option ℚ := none
  blood_glucose : Option ℚ := none
  waist_circumference : Option ℚ := none
  smoking_habits : Option String := none
  alcohol_consumption : Option String := none
  exercise_frequency : Option String := none
  sleep_hours : Option ℚ := none
  stress_level : Option String := none
deriving DecidableEq

/-- Python truthiness of an optional numeric field: `None` and `0` are falsy. -/
def qtruthy (x : Option ℚ) : Prop := x.getD 0 ≠ 0

instance (x : Option ℚ) : Decidable (qtruthy x) := by unfold qtruthy; infer_instance

/-- The numeric value of a field (only meaningful where `qtruthy` holds). -/
def qval (x : Option ℚ) : ℚ := x.getD 0

/-- Python truthiness of an optional string field: `None` and `""` are falsy. -/
def struthy (x : Option String) : Prop := x ≠ none ∧ x ≠ some ""

instance (x : Option String) : Decidable (struthy x) := by unfold struthy; infer_instance

/-! ## health_calculations.get_glucose_category and Visit.get_glucose_category -/

/-- Standalone classifier `health_calculations.get_glucose_category(glucose_mg_dl)`:
bands `<70, <100, <126, <200, else`. -/
def get_glucose_category (g? : Option ℚ) : Option String :=
  if ¬qtruthy g? then none
  else
    let g := qval g?
    if g < 70 then some "Low"
    else if g < 100 then some "Normal (Fasting)"
    else if g < 126 then some "Prediabetic (Fasting)"
    else if g < 200 then some "Diabetic (Fasting)"
    else some "Severely Elevated"

namespace Visit

/-- Visit-level classifier `Visit.get_glucose_category(self)`:
bands `<70, <100, <140, else`. -/
def get_glucose_category (g? : Option ℚ) : Option String :=
  if ¬qtruthy g? then none
  else
    let g := qval g?
    if g < 70 then some "Low"
    else if g < 100 then some "Normal"
    else if g < 140 then some "Prediabetic"
    else some "Diabetic"

end Visit

/-! ## health_calculations.get_blood_pressure_category -/

/-- The banding chain of `get_blood_pressure_category` on present values. -/
def bpCategoryCore (s d : ℚ) : String :=
  if s < 120 ∧ d < 80 then "Normal"
  else if s < 130 ∧ d < 80 then "Elevated"
  else if s < 140 ∨ d < 90 then "High Blood Pressure Stage 1"
  else if s < 180 ∨ d < 120 then "High Blood Pressure Stage 2"
  else "Hypertensive Crisis"

/-- `get_blood_pressure_category(systolic, diastolic)`. -/
def get_blood_pressure_category (s? d? : Option ℚ) : Option String :=
  if ¬qtruthy s? ∨ ¬qtruthy d? then none
  else some (bpCategoryCore (qval s?) (qval d?))

/-- Severity rank of the five blood-pressure categories, in the order the
specification lists them. -/
def bpSeverity (c : String) : ℕ :=
  if c = "Normal" then 0
  else if c = "Elevated" then 1
  else if c = "High Blood Pressure Stage 1" then 2
  else if c = "High Blood Pressure Stage 2" then 3
  else 4

/-! ## health_calculations.calculate_cardiovascular_risk_score -/

/-- Age block: `visit_data.get('age', 0) >= 45` adds 1 and the factor `Age ≥45`. -/
def cardioAge (v : VisitData) : ℕ × List String :=
  if 45 ≤ v.age.getD 0 then (1, ["Age ≥45"]) else (0, [])

/-- BMI block: `bmi and bmi >= 30` adds 2, else `bmi and bmi >= 25` adds 1. -/
def cardioBmi (v : VisitData) : ℕ × List String :=
  if qtruthy v.bmi ∧ 30 ≤ qval v.bmi then (2, ["Obesity"])
  else if qtruthy v.bmi ∧ 25 ≤ qval v.bmi then (1, ["Overweight"])
  else (0, [])

/-- Blood-pressure block: needs both values; `>=140 or >=90` adds 2, else
`>=130 or >=80` adds 1. -/
def cardioBp (v : VisitData) : ℕ × List String :=
  if qtruthy v.blood_pressure_systolic ∧ qtruthy v.blood_pressure_diastolic then
    if 140 ≤ qval v.blood_pressure_systolic ∨ 90 ≤ qval v.blood_pressure_diastolic then
      (2, ["Hypertension"])
    else if 130 ≤ qval v.blood_pressure_systolic ∨ 80 ≤ qval v.blood_pressure_diastolic then
      (1, ["Elevated BP"])
    else (0, [])
  else (0, [])

/-- Glucose block: `>=126` adds 2, else `>=100` adds 1. -/
def cardioGlucose (v : VisitData) : ℕ × List String :=
  if qtruthy v.blood_glucose then
    if 126 ≤ qval v.blood_glucose then (2, ["Diabetes"])
    else if 100 ≤ qval v.blood_glucose then (1, ["Prediabetes"])
    else (0, [])
  else (0, [])

/-- Smoking block: `smoking in ['Daily', 'Occasionally']` adds 2. -/
def cardioSmoking (v : VisitData) : ℕ × List String :=
  if v.smoking_habits = some "Daily" ∨ v.smoking_habits = some "Occasionally" then
    (2, ["Smoking"])
  else (0, [])

/-- Exercise block: `exercise in ['None', 'Rarely']` adds 1. -/
def cardioExercise (v : VisitData) : ℕ × List String :=
  if v.exercise_frequency = some "None" ∨ v.exercise_frequency = some "Rarely" then
    (1, ["Physical Inactivity"])
  else (0, [])

/-- Result of `calculate_cardiovascular_risk_score`. -/
structure RiskAssessment where
  risk_score : ℕ
  risk_level : String
  risk_factors : List String
deriving DecidableEq

/-- `calculate_cardiovascular_risk_score(visit_data)`: additive scoring in the
fixed order age, BMI, blood pressure, glucose, smoking, exercise, then the
level bands `<=2, <=4, <=6, else`. -/
def calculate_cardiovascular_risk_score (v : VisitData) : RiskAssessment :=
  let a := cardioAge v
  let b := cardioBmi v
  let c := cardioBp v
  let d := cardioGlucose v
  let e := cardioSmoking v
  let f := cardioExercise v
  let risk_score := a.1 + b.1 + c.1 + d.1 + e.1 + f.1
  { risk_score := risk_score
    risk_level :=
      if risk_score ≤ 2 then "Low Risk"
      else if risk_score ≤ 4 then "Moderate Risk"
      else if risk_score ≤ 6 then "High Risk"
      else "Very High Risk"
    risk_factors := a.2 ++ b.2 ++ c.2 ++ d.2 ++ e.2 ++ f.2 }

/-! ## health_calculations.calculate_metabolic_syndrome_criteria -/

/-- Waist criterion: needs waist and gender; threshold 40 inches for Male,
35 otherwise. -/
def metabolicWaist (v : VisitData) : ℕ × List String :=
  if qtruthy v.waist_circumference ∧ struthy v.gender then
    if (if v.gender = some "Male" then (40:ℚ) else 35) ≤ qval v.waist_circumference then
      (1, [if v.gender = some "Male" then "Waist circumference ≥40 inches"
           else "Waist circumference ≥35 inches"])
    else (0, [])
  else (0, [])

/-- Blood-pressure criterion: both present and `>=130 or >=85`. -/
def metabolicBp (v : VisitData) : ℕ × List String :=
  if qtruthy v.blood_pressure_systolic ∧ qtruthy v.blood_pressure_diastolic ∧
      (130 ≤ qval v.blood_pressure_systolic ∨ 85 ≤ qval v.blood_pressure_diastolic) then
    (1, ["Elevated blood pressure"])
  else (0, [])

/-- Glucose criterion: present and `>=100`. -/
def metabolicGlucose (v : VisitData) : ℕ × List String :=
  if qtruthy v.blood_glucose ∧ 100 ≤ qval v.blood_glucose then
    (1, ["Elevated fasting glucose"])
  else (0, [])

/-- Result of `calculate_metabolic_syndrome_criteria`. -/
structure MetabolicSyndromeResult where
  criteria_met : ℕ
  has_metabolic_syndrome : Bool
  criteria_details : List String
deriving DecidableEq

/-- `calculate_metabolic_syndrome_criteria(visit_data)`: the three computable
criteria, in order waist, blood pressure, glucose; syndrome flag at `>= 3`. -/
def calculate_metabolic_syndrome_criteria (v : VisitData) : MetabolicSyndromeResult :=
  let w := metabolicWaist v
  let b := metabolicBp v
  let g := metabolicGlucose v
  let criteria_met := w.1 + b.1 + g.1
  { criteria_met := criteria_met
    has_metabolic_syndrome := decide (3 ≤ criteria_met)
    criteria_details := w.2 ++ b.2 ++ g.2 }

/-! ## health_calculations.calculate_wellness_wheel_scores -/

/-- Exercise sub-score: `exercise_mapping.get(exercise, 5)`. -/
def exerciseScore (e : Option String) : ℕ :=
  if e = some "None" then 1
  else if e = some "Rarely" then 3
  else if e = some "1-2 times/week" then 5
  else if e = some "3-4 times/week" then 8
  else if e = some "5+ times/week" then 10
  else 5

/-- Sleep sub-score from `visit_data.get('sleep_hours', 7)`. -/
def sleepScore (h? : Option ℚ) : ℕ :=
  let h := h?.getD 7
  if 7 ≤ h ∧ h ≤ 9 then 8
  else if 6 ≤ h ∧ h ≤ 10 then 6
  else 3

/-- Stress sub-score: `stress_mapping.get(stress, 5)`. -/
def stressScore (s : Option String) : ℕ :=
  if s = some "Low (1-3)" then 9
  else if s = some "Moderate (4-6)" then 5
  else if s = some "High (7-10)" then 2
  else 5

/-- Smoking sub-score: `smoking_mapping.get(smoking, 10)`. -/
def smokingScore (s : Option String) : ℕ :=
  if s = some "Never" then 10
  else if s = some "Former Smoker" then 7
  else if s = some "Occasionally" then 3
  else if s = some "Daily" then 1
  else 10

/-- Alcohol sub-score: `alcohol_mapping.get(alcohol, 7)`. -/
def alcoholScore (a : Option String) : ℕ :=
  if a = some "None" then 8
  else if a = some "Occasionally" then 9
  else if a = some "Social Drinking" then 7
  else if a = some "Binge Drinking" then 3
  else if a = some "Heavy Drinking" then 1
  else 7

/-- Result of `calculate_wellness_wheel_scores`. -/
structure WellnessScores where
  exercise : ℕ
  sleep : ℕ
  stress : ℕ
  smoking : ℕ
  alcohol : ℕ
  overall : ℚ
deriving DecidableEq

/-- `calculate_wellness_wheel_scores(visit_data)`: the five dimension scores and
their mean rounded to one decimal. -/
def calculate_wellness_wheel_scores (v : VisitData) : WellnessScores :=
  let e := exerciseScore v.exercise_frequency
  let sl := sleepScore v.sleep_hours
  let st := stressScore v.stress_level
  let sm := smokingScore v.smoking_habits
  let al := alcoholScore v.alcohol_consumption
  { exercise := e, sleep := sl, stress := st, smoking := sm, alcohol := al
    overall := round1 (((e + sl + st + sm + al : ℕ) : ℚ) / 5) }


/-! ## corporate_screening.py: CorporateScreening document state -/

/-- The statistics fields of a Corporate Screening document; `none` models a
field that is unset/null. -/
structure ScreeningDoc where
  total_participants : Option ℕ := none
  male_participants : Option ℕ := none
  female_participants : Option ℕ := none
  age_group_18_30 : Option ℕ := none
  age_group_31_50 : Option ℕ := none
  age_group_51_plus : Option ℕ := none
  obesity_prevalence : Option ℚ := none
  hypertension_prevalence : Option ℚ := none
  diabetes_prevalence : Option ℚ := none
  smoking_prevalence : Option ℚ := none
  high_risk_participants : Option ℕ := none
  cost_per_participant : Option ℚ := none
  total_cost : Option ℚ := none
deriving DecidableEq

/-- A freshly created document: every statistics field unset. -/
def freshScreeningDoc : ScreeningDoc := {}

/-- Numerator condition of the hypertension metric: both readings truthy and
`systolic >= 140 or diastolic >= 90`. -/
def isHypertensive (v : VisitData) : Prop :=
  qtruthy v.blood_pressure_systolic ∧ qtruthy v.blood_pressure_diastolic ∧
    (140 ≤ qval v.blood_pressure_systolic ∨ 90 ≤ qval v.blood_pressure_diastolic)

instance (v : VisitData) : Decidable (isHypertensive v) := by
  unfold isHypertensive; infer_instance

/-- Numerator condition of the obesity metric: `bmi` truthy and `>= 30`. -/
def isObese (v : VisitData) : Prop := qtruthy v.bmi ∧ 30 ≤ qval v.bmi

instance (v : VisitData) : Decidable (isObese v) := by unfold isObese; infer_instance

/-- Numerator condition of the diabetes metric: glucose truthy and `>= 140`. -/
def isDiabetic (v : VisitData) : Prop := qtruthy v.blood_glucose ∧ 140 ≤ qval v.blood_glucose

instance (v : VisitData) : Decidable (isDiabetic v) := by unfold isDiabetic; infer_instance

/-- Numerator condition of the smoking metric: habits truthy and in
`['Occasionally', 'Daily']`. -/
def isSmoker (v : VisitData) : Prop :=
  struthy v.smoking_habits ∧
    (v.smoking_habits = some "Occasionally" ∨ v.smoking_habits = some "Daily")

instance (v : VisitData) : Decidable (isSmoker v) := by unfold isSmoker; infer_instance

/-- Risk-factor count used for `high_risk_participants`. -/
def highRiskFactors (v : VisitData) : ℕ :=
  (if isObese v then 1 else 0) + (if isHypertensive v then 1 else 0) +
    (if isDiabetic v then 1 else 0) + (if isSmoker v then 1 else 0)

/-- `CorporateScreening.calculate_health_prevalence(self, visits)`: each
prevalence is set only when its denominator count is positive; the
hypertension denominator counts records with a truthy *systolic* value only,
exactly as in the source. -/
def calculate_health_prevalence (doc : ScreeningDoc) (visits : List VisitData) : ScreeningDoc :=
  let total_with_bmi := visits.countP (fun v => decide (qtruthy v.bmi))
  let total_with_bp := visits.countP (fun v => decide (qtruthy v.blood_pressure_systolic))
  let total_with_glucose := visits.countP (fun v => decide (qtruthy v.blood_glucose))
  let obese_count := visits.countP (fun v => decide (isObese v))
  let hypertensive_count := visits.countP (fun v => decide (isHypertensive v))
  let diabetic_count := visits.countP (fun v => decide (isDiabetic v))
  let d1 :=
    if 0 < total_with_bmi then
      { doc with
        obesity_prevalence := some (round1 ((obese_count : ℚ) / (total_with_bmi : ℚ) * 100)) }
    else doc
  let d2 :=
    if 0 < total_with_bp then
      { d1 with
        hypertension_prevalence :=
          some (round1 ((hypertensive_count : ℚ) / (total_with_bp : ℚ) * 100)) }
    else d1
  let d3 :=
    if 0 < total_with_glucose then
      { d2 with
        diabetes_prevalence :=
          some (round1 ((diabetic_count : ℚ) / (total_with_glucose : ℚ) * 100)) }
    else d2
  let total_with_smoking_data := visits.countP (fun v => decide (struthy v.smoking_habits))
  let smoker_count := visits.countP (fun v => decide (isSmoker v))
  let d4 :=
    if 0 < total_with_smoking_data then
      { d3 with
        smoking_prevalence :=
          some (round1 ((smoker_count : ℚ) / (total_with_smoking_data : ℚ) * 100)) }
    else d3
  { d4 with
    high_risk_participants := some (visits.countP (fun v => decide (2 ≤ highRiskFactors v))) }

/-- `CorporateScreening.calculate_statistics(self)`, with the fetched visit
list passed explicitly: on an empty list it sets `total_participants` to 0 and
returns immediately; otherwise it fills demographics, calls
`calculate_health_prevalence` and, when a cost per participant is set,
`total_cost`. -/
def calculate_statistics (doc : ScreeningDoc) (visits : List VisitData) : ScreeningDoc :=
  if visits = [] then { doc with total_participants := some 0 }
  else
    let d1 := { doc with
      total_participants := some visits.length
      male_participants := some (visits.countP (fun v => v.gender == some "Male"))
      female_participants := some (visits.countP (fun v => v.gender == some "Female"))
      age_group_18_30 := some (visits.countP (fun v =>
        decide (qtruthy v.age ∧ 18 ≤ qval v.age ∧ qval v.age ≤ 30)))
      age_group_31_50 := some (visits.countP (fun v =>
        decide (qtruthy v.age ∧ 31 ≤ qval v.age ∧ qval v.age ≤ 50)))
      age_group_51_plus := some (visits.countP (fun v =>
        decide (qtruthy v.age ∧ 51 ≤ qval v.age))) }
    let d2 := calculate_health_prevalence d1 visits
    if qtruthy d2.cost_per_participant ∧ d2.total_participants.getD 0 ≠ 0 then
      { d2 with
        total_cost := some (qval d2.cost_per_participant * (d2.total_participants.getD 0 : ℚ)) }
    else d2

/-! ## dashboard_api.get_corporate_wellness_summary: weighted averages -/

/-- One completed screening row as selected by the summary query. -/
structure ScreeningRow where
  total_participants : ℚ
  obesity_prevalence : ℚ
  hypertension_prevalence : ℚ
  diabetes_prevalence : ℚ
  smoking_prevalence : ℚ
deriving DecidableEq

/-- Accumulator of the weighted-average loop. -/
structure WeightAcc where
  total_weight : ℚ
  weighted_obesity : ℚ
  weighted_hypertension : ℚ
  weighted_diabetes : ℚ
  weighted_smoking : ℚ
deriving DecidableEq

/-- The `for screening in screenings:` loop: rows whose participants are not
positive are skipped entirely. -/
def weightedLoop : List ScreeningRow → WeightAcc → WeightAcc
  | [], acc => acc
  | r :: rest, acc =>
    if 0 < r.total_participants then
      weightedLoop rest
        { total_weight := acc.total_weight + r.total_participants
          weighted_obesity := acc.weighted_obesity + r.obesity_prevalence * r.total_participants
          weighted_hypertension :=
            acc.weighted_hypertension + r.hypertension_prevalence * r.total_participants
          weighted_diabetes := acc.weighted_diabetes + r.diabetes_prevalence * r.total_participants
          weighted_smoking := acc.weighted_smoking + r.smoking_prevalence * r.total_participants }
    else weightedLoop rest acc

/-- The four weighted health metrics of `get_corporate_wellness_summary`:
`avg_metrics` stays empty (`none`) unless the accumulated weight is positive. -/
def avg_metrics (screenings : List ScreeningRow) : Option (ℚ × ℚ × ℚ × ℚ) :=
  let acc := weightedLoop screenings ⟨0, 0, 0, 0, 0⟩
  if 0 < acc.total_weight then
    some (round1 (acc.weighted_obesity / acc.total_weight),
      round1 (acc.weighted_hypertension / acc.total_weight),
      round1 (acc.weighted_diabetes / acc.total_weight),
      round1 (acc.weighted_smoking / acc.total_weight))
  else none

/-! ## dashboard_api.generate_executive_summary -/

/-- The `visit_stats` row of `get_main_dashboard_data`. -/
structure VisitStats where
  total_visits : ℕ
  unique_patients : ℕ
  screening_visits : ℕ
  completed_visits : ℕ
deriving DecidableEq

/-- The `summary_stats` block of `get_corporate_wellness_summary` (absent when
there are no completed screenings). -/
structure CorpSummaryStats where
  total_screenings : ℕ
  total_participants : ℕ
  companies_served : ℕ
deriving DecidableEq

/-- One narrative sentence of the executive summary, abstracted to the data it
interpolates (the surrounding template text is fixed). -/
inductive SummaryPoint
  | visits (total unique screening : ℕ)
  | weight (obesity_rate overweight_rate : ℚ)
  | bloodPressure (hypertension_rate : ℚ)
  | corporate (participants companies screenings : ℕ)
  | recommendations (items : List String)
deriving DecidableEq

/-- The `key_metrics` block of the executive summary response. -/
structure KeyMetrics where
  total_visits_3m : ℕ
  obesity_rate : ℚ
  hypertension_rate : ℚ
  corporate_participants : ℕ
deriving DecidableEq

/-- Python dict insertion (`d[k] = v`): overwrite an existing key in place or
append a new one. -/
def dictInsert : List (String × ℕ) → String → ℕ → List (String × ℕ)
  | [], k, v => [(k, v)]
  | (k0, v0) :: rest, k, v =>
    if k0 = k then (k0, v) :: rest else (k0, v0) :: dictInsert rest k v

/-- The dict comprehension `{item["category"]: item["count"] for item in rows}`. -/
def buildDict (rows : List (String × ℕ)) : List (String × ℕ) :=
  rows.foldl (fun d r => dictInsert d r.1 r.2) []

/-- `d.get(k, 0)`. -/
def dictGet (d : List (String × ℕ)) (k : String) : ℕ :=
  match d.find? (fun p => p.1 == k) with
  | some p => p.2
  | none => 0

/-- `sum(d.values())`. -/
def dictValuesSum (d : List (String × ℕ)) : ℕ := (d.map (fun p => p.2)).sum

/-- `dashboard_api.generate_executive_summary()`, with the fetched dashboard
data passed explicitly. The locals `obesity_rate` and `hypertension_rate`
are modelled as `Option` values that are `none` exactly when the source never
assigns them (zero measured records); reading an unassigned local at the
recommendations step is Python's NameError, modelled as `Except.error`. -/
def generate_executive_summary (vs : VisitStats) (bmiRows bpRows : List (String × ℕ))
    (wellness : Option CorpSummaryStats) : Except String (List SummaryPoint × KeyMetrics) :=
  let points0 : List SummaryPoint :=
    if 0 < vs.total_visits then
      [SummaryPoint.visits vs.total_visits vs.unique_patients vs.screening_visits]
    else []
  let bmi_data := buildDict bmiRows
  let total_bmi_records := dictValuesSum bmi_data
  let obesity_rate? : Option ℚ :=
    if 0 < total_bmi_records then
      some (round1 ((dictGet bmi_data "Obese" : ℚ) / (total_bmi_records : ℚ) * 100))
    else none
  let overweight_rate? : Option ℚ :=
    if 0 < total_bmi_records then
      some (round1 ((dictGet bmi_data "Overweight" : ℚ) / (total_bmi_records : ℚ) * 100))
    else none
  let points1 := points0 ++
    (match obesity_rate?, overweight_rate? with
     | some ob, some ow => [SummaryPoint.weight ob ow]
     | _, _ => [])
  let bp_data := buildDict bpRows
  let total_bp_records := dictValuesSum bp_data
  let hypertension_rate? : Option ℚ :=
    if 0 < total_bp_records then
      some (round1 ((dictGet bp_data "Hypertensive" : ℚ) / (total_bp_records : ℚ) * 100))
    else none
  let points2 := points1 ++
    (match hypertension_rate? with
     | some hy => [SummaryPoint.bloodPressure hy]
     | none => [])
  let points3 := points2 ++
    (match wellness with
     | some w => [SummaryPoint.corporate w.total_participants w.companies_served
         w.total_screenings]
     | none => [])
  match obesity_rate? with
  | none => Except.error "NameError: obesity_rate is not defined"
  | some ob =>
    match hypertension_rate? with
    | none => Except.error "NameError: hypertension_rate is not defined"
    | some hy =>
      let recs :=
        (if 30 < ob then ["Implement comprehensive weight management programs"] else []) ++
          (if 25 < hy then ["Expand cardiovascular health monitoring and interventions"] else [])
      let points4 := points3 ++ (if recs ≠ [] then [SummaryPoint.recommendations recs] else [])
      Except.ok (points4,
        { total_visits_3m := vs.total_visits, obesity_rate := ob, hypertension_rate := hy
          corporate_participants := (wellness.map (fun w => w.total_participants)).getD 0 })

/-! ## Shared lemmas -/

lemma exerciseScore_mem (e : Option String) :
    exerciseScore e = 1 ∨ exerciseScore e = 3 ∨ exerciseScore e = 5 ∨
      exerciseScore e = 8 ∨ exerciseScore e = 10 := by
  unfold exerciseScore; split_ifs <;> simp

lemma sleepScore_mem (h : Option ℚ) :
    sleepScore h = 3 ∨ sleepScore h = 6 ∨ sleepScore h = 8 := by
  simp only [sleepScore]; split_ifs <;> simp

lemma stressScore_mem (s : Option String) :
    stressScore s = 2 ∨ stressScore s = 5 ∨ stressScore s = 9 := by
  unfold stressScore; split_ifs <;> simp

lemma smokingScore_mem (s : Option String) :
    smokingScore s = 1 ∨ smokingScore s = 3 ∨ smokingScore s = 7 ∨ smokingScore s = 10 := by
  unfold smokingScore; split_ifs <;> simp

lemma alcoholScore_mem (a : Option String) :
    alcoholScore a = 1 ∨ alcoholScore a = 3 ∨ alcoholScore a = 7 ∨
      alcoholScore a = 8 ∨ alcoholScore a = 9 := by
  unfold alcoholScore; split_ifs <;> simp

lemma round1_nat_div5_bounds (n : ℕ) (h8 : 8 ≤ n) (h46 : n ≤ 46) :
    (8:ℚ)/5 ≤ round1 ((n : ℚ) / 5) ∧ round1 ((n : ℚ) / 5) ≤ 46/5 ∧
      round1 ((n : ℚ) / 5) ≠ 10 ∧ round1 ((n : ℚ) / 5) ≠ 1 := by
  interval_cases n <;> norm_num [round1, rhe]

/-- C8: on the record {exercise "5+ times/week", sleep 8h, stress "Low (1-3)",
smoking "Never", alcohol "None"}, `calculate_wellness_wheel_scores` returns
exercise 10, sleep 8, stress 9, smoking 10, alcohol 8 and overall
round((10+8+9+10+8)/5, 1) = 9.0; and for every record the overall score is the
mean of the five dimension scores rounded to one decimal. -/
theorem wellness_scores_c8 :
    calculate_wellness_wheel_scores
        { exercise_frequency := some "5+ times/week", sleep_hours := some 8,
          stress_level := some "Low (1-3)", smoking_habits := some "Never",
          alcohol_consumption := some "None" } =
      { exercise := 10, sleep := 8, stress := 9, smoking := 10, alcohol := 8, overall := 9 } ∧
    ∀ v : VisitData,
      (calculate_wellness_wheel_scores v).overall =
        round1 ((((calculate_wellness_wheel_scores v).exercise +
          (calculate_wellness_wheel_scores v).sleep +
          (calculate_wellness_wheel_scores v).stress +
          (calculate_wellness_wheel_scores v).smoking +
          (calculate_wellness_wheel_scores v).alcohol : ℕ) : ℚ) / 5) := by
  constructor
  · simp only [calculate_wellness_wheel_scores, exerciseScore, sleepScore, stressScore,
      smokingScore, alcoholScore, reduceIte, Option.some.injEq, String.reduceEq]
    norm_num [round1, rhe]
  · intro v
    rfl

/-- C10: every wellness sub-score lies in its fixed finite set (exercise in
{1,3,5,8,10}, sleep in {3,6,8}, stress in {2,5,9}, smoking in {1,3,7,10},
alcohol in {1,3,7,8,9}), so the overall score always lies in [1.6, 9.2] and in
particular never equals 10 or 1. -/
theorem wellness_bounds_c10 :
    ∀ v : VisitData,
      ((calculate_wellness_wheel_scores v).exercise = 1 ∨
        (calculate_wellness_wheel_scores v).exercise = 3 ∨
        (calculate_wellness_wheel_scores v).exercise = 5 ∨
        (calculate_wellness_wheel_scores v).exercise = 8 ∨
        (calculate_wellness_wheel_scores v).exercise = 10) ∧
      ((calculate_wellness_wheel_scores v).sleep = 3 ∨
        (calculate_wellness_wheel_scores v).sleep = 6 ∨
        (calculate_wellness_wheel_scores v).sleep = 8) ∧
      ((calculate_wellness_wheel_scores v).stress = 2 ∨
        (calculate_wellness_wheel_scores v).stress = 5 ∨
        (calculate_wellness_wheel_scores v).stress = 9) ∧
      ((calculate_wellness_wheel_scores v).smoking = 1 ∨
        (calculate_wellness_wheel_scores v).smoking = 3 ∨
        (calculate_wellness_wheel_scores v).smoking = 7 ∨
        (calculate_wellness_wheel_scores v).smoking = 10) ∧
      ((calculate_wellness_wheel_scores v).alcohol = 1 ∨
        (calculate_wellness_wheel_scores v).alcohol = 3 ∨
        (calculate_wellness_wheel_scores v).alcohol = 7 ∨
        (calculate_wellness_wheel_scores v).alcohol = 8 ∨
        (calculate_wellness_wheel_scores v).alcohol = 9) ∧
      (8:ℚ)/5 ≤ (calculate_wellness_wheel_scores v).overall ∧
      (calculate_wellness_wheel_scores v).overall ≤ 46/5 ∧
      (calculate_wellness_wheel_scores v).overall ≠ 10 ∧
      (calculate_wellness_wheel_scores v).overall ≠ 1 := by
  intro v
  have he := exerciseScore_mem v.exercise_frequency
  have hs := sleepScore_mem v.sleep_hours
  have ht := stressScore_mem v.stress_level
  have hm := smokingScore_mem v.smoking_habits
  have ha := alcoholScore_mem v.alcohol_consumption
  have hex : (calculate_wellness_wheel_scores v).exercise = exerciseScore v.exercise_frequency :=
    rfl
  have hsl : (calculate_wellness_wheel_scores v).sleep = sleepScore v.sleep_hours := rfl
  have hst : (calculate_wellness_wheel_scores v).stress = stressScore v.stress_level := rfl
  have hsm : (calculate_wellness_wheel_scores v).smoking = smokingScore v.smoking_habits := rfl
  have hal : (calculate_wellness_wheel_scores v).alcohol = alcoholScore v.alcohol_consumption :=
    rfl
  have hov : (calculate_wellness_wheel_scores v).overall =
      round1 (((exerciseScore v.exercise_frequency + sleepScore v.sleep_hours +
        stressScore v.stress_level + smokingScore v.smoking_habits +
        alcoholScore v.alcohol_consumption : ℕ) : ℚ) / 5) := rfl
  rw [hex, hsl, hst, hsm, hal, hov]
  have hlo : 8 ≤ exerciseScore v.exercise_frequency + sleepScore v.sleep_hours +
      stressScore v.stress_level + smokingScore v.smoking_habits +
      alcoholScore v.alcohol_consumption := by omega
  have hhi : exerciseScore v.exercise_frequency + sleepScore v.sleep_hours +
      stressScore v.stress_level + smokingScore v.smoking_habits +
      alcoholScore v.alcohol_consumption ≤ 46 := by omega
  have hb := round1_nat_div5_bounds _ hlo hhi
  exact ⟨he, hs, ht, hm, ha, hb.1, hb.2.1, hb.2.2.1, hb.2.2.2⟩

/-- The visit record of the cardiovascular risk test vector. -/
def c1Record : VisitData :=
  { age := some 50, bmi := some 32, blood_pressure_systolic := some 145,
    blood_pressure_diastolic := some 95, blood_glucose := some 130,
    smoking_habits := some "Daily", exercise_frequency := some "None" }

/-- C1: on the test record `calculate_cardiovascular_risk_score` returns
risk_score 10 (contributions 1+2+2+2+2+1), risk_level "Very High Risk" and the
six factors in the fixed order age, BMI, blood pressure, glucose, smoking,
exercise; the level bands are score <=2 Low, <=4 Moderate, <=6 High, else Very
High; the score and factor list decompose into the six per-field blocks and a
missing field contributes 0 points and records no factor. -/
theorem cardio_risk_c1 :
    (calculate_cardiovascular_risk_score c1Record =
      { risk_score := 10, risk_level := "Very High Risk",
        risk_factors := ["Age ≥45", "Obesity", "Hypertension", "Diabetes", "Smoking",
          "Physical Inactivity"] }) ∧
    (∀ v : VisitData,
      ((calculate_cardiovascular_risk_score v).risk_score ≤ 2 →
        (calculate_cardiovascular_risk_score v).risk_level = "Low Risk") ∧
      (2 < (calculate_cardiovascular_risk_score v).risk_score →
        (calculate_cardiovascular_risk_score v).risk_score ≤ 4 →
        (calculate_cardiovascular_risk_score v).risk_level = "Moderate Risk") ∧
      (4 < (calculate_cardiovascular_risk_score v).risk_score →
        (calculate_cardiovascular_risk_score v).risk_score ≤ 6 →
        (calculate_cardiovascular_risk_score v).risk_level = "High Risk") ∧
      (6 < (calculate_cardiovascular_risk_score v).risk_score →
        (calculate_cardiovascular_risk_score v).risk_level = "Very High Risk")) ∧
    (∀ v : VisitData,
      (calculate_cardiovascular_risk_score v).risk_score =
        (cardioAge v).1 + (cardioBmi v).1 + (cardioBp v).1 + (cardioGlucose v).1 +
          (cardioSmoking v).1 + (cardioExercise v).1 ∧
      (calculate_cardiovascular_risk_score v).risk_factors =
        (cardioAge v).2 ++ (cardioBmi v).2 ++ (cardioBp v).2 ++ (cardioGlucose v).2 ++
          (cardioSmoking v).2 ++ (cardioExercise v).2 ∧
      (v.age = none → cardioAge v = (0, [])) ∧
      (v.bmi = none → cardioBmi v = (0, [])) ∧
      (v.blood_pressure_systolic = none ∨ v.blood_pressure_diastolic = none →
        cardioBp v = (0, [])) ∧
      (v.blood_glucose = none → cardioGlucose v = (0, [])) ∧
      (v.smoking_habits = none → cardioSmoking v = (0, [])) ∧
      (v.exercise_frequency = none → cardioExercise v = (0, []))) := by
  refine ⟨by decide, fun v => ?_, fun v => ?_⟩
  · have hlevel : (calculate_cardiovascular_risk_score v).risk_level =
        (if (calculate_cardiovascular_risk_score v).risk_score ≤ 2 then "Low Risk"
         else if (calculate_cardiovascular_risk_score v).risk_score ≤ 4 then "Moderate Risk"
         else if (calculate_cardiovascular_risk_score v).risk_score ≤ 6 then "High Risk"
         else "Very High Risk") := rfl
    rw [hlevel]
    refine ⟨fun h1 => by rw [if_pos h1], fun h2 h3 => ?_, fun h4 h5 => ?_, fun h6 => ?_⟩
    · rw [if_neg (by omega), if_pos h3]
    · rw [if_neg (by omega), if_neg (by omega), if_pos h5]
    · rw [if_neg (by omega), if_neg (by omega), if_neg (by omega)]
  · refine ⟨rfl, rfl, fun h => ?_, fun h => ?_, fun h => ?_, fun h => ?_, fun h => ?_,
      fun h => ?_⟩
    · norm_num [cardioAge, h]
    · norm_num [cardioBmi, h, qtruthy]
    · rcases h with h | h
      · norm_num [cardioBp, h, qtruthy]
      · norm_num [cardioBp, h, qtruthy]
    · norm_num [cardioGlucose, h, qtruthy]
    · simp [cardioSmoking, h]
    · simp [cardioExercise, h]

/-- Witness for C1: the band implication and the missing-field parts of
`cardio_risk_c1` applied to the empty record, whose score is 0. -/
theorem cardio_risk_c1_witness :
    (calculate_cardiovascular_risk_score {}).risk_level = "Low Risk" ∧
      cardioAge {} = (0, []) := by
  refine ⟨(cardio_risk_c1.2.1 {}).1 (by decide), ?_⟩
  exact ((cardio_risk_c1.2.2 {}).2.2.1) rfl

/-- C4: the standalone glucose classifier uses the bands <70, <100, <126,
<200, else, the visit-level one the narrower <70, <100, <140, else; hence for
every glucose value in [126, 140) the standalone classifier returns the
Diabetic category while the visit-level one returns Prediabetic. -/
theorem glucose_bands_c4 :
    (∀ g : ℚ, 126 ≤ g → g < 140 →
      get_glucose_category (some g) = some "Diabetic (Fasting)" ∧
      Visit.get_glucose_category (some g) = some "Prediabetic") ∧
    (∀ g : ℚ, g ≠ 0 →
      (g < 70 → get_glucose_category (some g) = some "Low" ∧
        Visit.get_glucose_category (some g) = some "Low") ∧
      (70 ≤ g → g < 100 → get_glucose_category (some g) = some "Normal (Fasting)" ∧
        Visit.get_glucose_category (some g) = some "Normal") ∧
      (100 ≤ g → g < 126 → get_glucose_category (some g) = some "Prediabetic (Fasting)") ∧
      (126 ≤ g → g < 200 → get_glucose_category (some g) = some "Diabetic (Fasting)") ∧
      (200 ≤ g → get_glucose_category (some g) = some "Severely Elevated") ∧
      (100 ≤ g → g < 140 → Visit.get_glucose_category (some g) = some "Prediabetic") ∧
      (140 ≤ g → Visit.get_glucose_category (some g) = some "Diabetic")) ∧
    get_glucose_category none = none ∧ Visit.get_glucose_category none = none := by
  have hstand : ∀ g : ℚ, g ≠ 0 → get_glucose_category (some g) =
      (if g < 70 then some "Low"
       else if g < 100 then some "Normal (Fasting)"
       else if g < 126 then some "Prediabetic (Fasting)"
       else if g < 200 then some "Diabetic (Fasting)"
       else some "Severely Elevated") := by
    intro g hg
    simp [get_glucose_category, qtruthy, qval, hg]
  have hvisit : ∀ g : ℚ, g ≠ 0 → Visit.get_glucose_category (some g) =
      (if g < 70 then some "Low"
       else if g < 100 then some "Normal"
       else if g < 140 then some "Prediabetic"
       else some "Diabetic") := by
    intro g hg
    simp [Visit.get_glucose_category, qtruthy, qval, hg]
  refine ⟨fun g h1 h2 => ?_, fun g hg => ?_, by simp [get_glucose_category, qtruthy],
    by simp [Visit.get_glucose_category, qtruthy]⟩
  · have hg : g ≠ 0 := by intro h; rw [h] at h1; norm_num at h1
    rw [hstand g hg, hvisit g hg]
    constructor
    · rw [if_neg (by linarith), if_neg (by linarith), if_neg (by linarith), if_pos (by linarith)]
    · rw [if_neg (by linarith), if_neg (by linarith), if_pos h2]
  · rw [hstand g hg, hvisit g hg]
    refine ⟨fun h => ⟨by rw [if_pos h], by rw [if_pos h]⟩,
      fun h1 h2 => ⟨?_, ?_⟩, fun h1 h2 => ?_, fun h1 h2 => ?_, fun h1 => ?_,
      fun h1 h2 => ?_, fun h1 => ?_⟩
    · rw [if_neg (by linarith), if_pos h2]
    · rw [if_neg (by linarith), if_pos h2]
    · rw [if_neg (by linarith), if_neg (by linarith), if_pos h2]
    · rw [if_neg (by linarith), if_neg (by linarith), if_neg (by linarith), if_pos h2]
    · rw [if_neg (by linarith), if_neg (by linarith), if_neg (by linarith),
        if_neg (by linarith)]
    · rw [if_neg (by linarith), if_neg (by linarith), if_pos h2]
    · rw [if_neg (by linarith), if_neg (by linarith), if_neg (by linarith)]

/-- Witness for C4: the divergence at glucose 130. -/
theorem glucose_bands_c4_witness :
    get_glucose_category (some 130) = some "Diabetic (Fasting)" ∧
      Visit.get_glucose_category (some 130) = some "Prediabetic" :=
  glucose_bands_c4.1 130 (by norm_num) (by norm_num)

/-- The three per-criterion counts of the metabolic-syndrome check are 0/1. -/
lemma metabolicWaist_le (v : VisitData) : (metabolicWaist v).1 ≤ 1 := by
  unfold metabolicWaist; split_ifs <;> simp

lemma metabolicBp_le (v : VisitData) : (metabolicBp v).1 ≤ 1 := by
  unfold metabolicBp; split_ifs <;> simp

lemma metabolicGlucose_le (v : VisitData) : (metabolicGlucose v).1 ≤ 1 := by
  unfold metabolicGlucose; split_ifs <;> simp

/-- C9: `calculate_metabolic_syndrome_criteria` flags the syndrome exactly
when criteria_met >= 3; criteria_met never exceeds 3, so the flag forces all
three computable criteria; and the glucose-only record with glucose 110 yields
criteria_met 1 and no syndrome. -/
theorem metabolic_syndrome_c9 :
    (∀ v : VisitData,
      ((calculate_metabolic_syndrome_criteria v).has_metabolic_syndrome = true ↔
        3 ≤ (calculate_metabolic_syndrome_criteria v).criteria_met) ∧
      (calculate_metabolic_syndrome_criteria v).criteria_met ≤ 3 ∧
      ((calculate_metabolic_syndrome_criteria v).has_metabolic_syndrome = true →
        (metabolicWaist v).1 = 1 ∧ (metabolicBp v).1 = 1 ∧ (metabolicGlucose v).1 = 1)) ∧
    calculate_metabolic_syndrome_criteria { blood_glucose := some 110 } =
      { criteria_met := 1, has_metabolic_syndrome := false,
        criteria_details := ["Elevated fasting glucose"] } := by
  refine ⟨fun v => ?_, by decide⟩
  have hmet : (calculate_metabolic_syndrome_criteria v).criteria_met =
      (metabolicWaist v).1 + (metabolicBp v).1 + (metabolicGlucose v).1 := rfl
  have hhas : (calculate_metabolic_syndrome_criteria v).has_metabolic_syndrome =
      decide (3 ≤ (calculate_metabolic_syndrome_criteria v).criteria_met) := rfl
  have hw := metabolicWaist_le v
  have hb := metabolicBp_le v
  have hg := metabolicGlucose_le v
  refine ⟨by rw [hhas]; exact decide_eq_true_iff, by omega, fun h => ?_⟩
  have h3 : 3 ≤ (calculate_metabolic_syndrome_criteria v).criteria_met := by
    rw [hhas] at h; exact of_decide_eq_true h
  omega

/-- A record meeting all three computable metabolic-syndrome criteria. -/
def c9Record : VisitData :=
  { waist_circumference := some 45, gender := some "Male",
    blood_pressure_systolic := some 140, blood_pressure_diastolic := some 90,
    blood_glucose := some 120 }

/-- Witness for C9: on a record meeting all three computable criteria, the
syndrome flag implies each per-criterion count is 1. -/
theorem metabolic_syndrome_c9_witness :
    (metabolicWaist c9Record).1 = 1 ∧ (metabolicBp c9Record).1 = 1 ∧
      (metabolicGlucose c9Record).1 = 1 :=
  (metabolic_syndrome_c9.1 c9Record).2.2 (by decide)

/-- C7: for present positive readings the blood-pressure classifier returns
exactly one of the five categories, and the category severity (Normal <
Elevated < Stage 1 < Stage 2 < Crisis) is monotonically non-decreasing in the
systolic value with the diastolic fixed, and in the diastolic value with the
systolic fixed. -/
theorem bp_category_c7 :
    (∀ s d : ℚ, 0 < s → 0 < d →
      get_blood_pressure_category (some s) (some d) = some (bpCategoryCore s d) ∧
      (bpCategoryCore s d = "Normal" ∨ bpCategoryCore s d = "Elevated" ∨
        bpCategoryCore s d = "High Blood Pressure Stage 1" ∨
        bpCategoryCore s d = "High Blood Pressure Stage 2" ∨
        bpCategoryCore s d = "Hypertensive Crisis")) ∧
    (∀ s s' d : ℚ, s ≤ s' →
      bpSeverity (bpCategoryCore s d) ≤ bpSeverity (bpCategoryCore s' d)) ∧
    (∀ s d d' : ℚ, d ≤ d' →
      bpSeverity (bpCategoryCore s d) ≤ bpSeverity (bpCategoryCore s d')) := by
  refine ⟨fun s d hs hd => ⟨?_, ?_⟩, fun s s' d hss => ?_, fun s d d' hdd => ?_⟩
  · simp [get_blood_pressure_category, qtruthy, qval, hs.ne', hd.ne']
  · unfold bpCategoryCore; split_ifs <;> simp
  · unfold bpCategoryCore
    split_ifs <;> first
      | decide
      | (exfalso; simp only [not_and_or, not_or, not_lt] at *; casesm* _ ∨ _ <;> linarith)
  · unfold bpCategoryCore
    split_ifs <;> first
      | decide
      | (exfalso; simp only [not_and_or, not_or, not_lt] at *; casesm* _ ∨ _ <;> linarith)

/-- Witness for C7: the classifier at (118, 76) and severity monotonicity from
(118, 76) to (150, 76). -/
theorem bp_category_c7_witness :
    get_blood_pressure_category (some 118) (some 76) = some (bpCategoryCore 118 76) ∧
      bpSeverity (bpCategoryCore 118 76) ≤ bpSeverity (bpCategoryCore 150 76) :=
  ⟨(bp_category_c7.1 118 76 (by norm_num) (by norm_num)).1,
    bp_category_c7.2.1 118 150 76 (by norm_num)⟩

/-- C2 counterexample: in a cohort with one visit whose systolic reading is
150 and whose diastolic reading is null, no record has *both* blood-pressure
fields non-null, yet the code sets `hypertension_prevalence` to 0.0 instead of
leaving it absent — because its denominator counts systolic-only records. -/
theorem hypertension_denominator_counterexample :
    ([({ blood_pressure_systolic := some 150 } : VisitData)].countP
        (fun v => decide (qtruthy v.blood_pressure_systolic ∧
          qtruthy v.blood_pressure_diastolic)) = 0) ∧
    (calculate_health_prevalence freshScreeningDoc
        [{ blood_pressure_systolic := some 150 }]).hypertension_prevalence = some 0 ∧
    (calculate_health_prevalence freshScreeningDoc
        [{ blood_pressure_systolic := some 150 }]).hypertension_prevalence ≠ none := by
  refine ⟨by decide, ?_, ?_⟩
  · show some (round1 ((0 : ℚ) / (1 : ℚ) * 100)) = some 0
    norm_num [round1, rhe]
  · show some (round1 ((0 : ℚ) / (1 : ℚ) * 100)) ≠ none
    simp

/-- C2 as amended: the hypertension prevalence equals
round(100 * numerator / denominator, 1) where the *denominator* is the count
of records with a non-null systolic value (not of records with both readings),
the numerator is the count of records with both readings non-null and
systolic >= 140 or diastolic >= 90, and the field is left untouched when the
denominator is 0. -/
theorem hypertension_prevalence_c2 :
    ∀ (doc : ScreeningDoc) (visits : List VisitData),
      (calculate_health_prevalence doc visits).hypertension_prevalence =
        if 0 < visits.countP (fun v => decide (qtruthy v.blood_pressure_systolic)) then
          some (round1 (100 * (visits.countP (fun v => decide (isHypertensive v)) : ℚ) /
            (visits.countP (fun v => decide (qtruthy v.blood_pressure_systolic)) : ℚ)))
        else doc.hypertension_prevalence := by
  intro doc visits
  simp only [calculate_health_prevalence]
  split_ifs <;>
    simp_all [mul_comm, mul_div_assoc]

/-- C3 counterexample: aggregating the empty cohort on a fresh document sets
`total_participants` to 0 but does *not* set the demographic counts to zero —
`male_participants` stays absent. -/
theorem empty_cohort_counterexample :
    (calculate_statistics freshScreeningDoc []).total_participants = some 0 ∧
    (calculate_statistics freshScreeningDoc []).male_participants = none ∧
    (calculate_statistics freshScreeningDoc []).male_participants ≠ some 0 := by
  refine ⟨rfl, rfl, by simp [calculate_statistics, freshScreeningDoc]⟩

/-- C3 as amended: on an empty cohort `calculate_statistics` only sets
`total_participants` to 0 and returns, leaving every other field — the
demographic counts and all prevalence fields — exactly as they were (absent on
a fresh document); it never raises and never divides by zero. -/
theorem calculate_statistics_empty_c3 :
    ∀ doc : ScreeningDoc,
      calculate_statistics doc [] = { doc with total_participants := some 0 } := by
  intro doc
  simp [calculate_statistics]

/-- Unrolling the weighted-average loop: it accumulates, over exactly the rows
with positive participants, the participants and the metric-times-participants
products. -/
lemma weightedLoop_eq (rows : List ScreeningRow) (acc : WeightAcc) :
    weightedLoop rows acc =
      { total_weight := acc.total_weight +
          ((rows.filter (fun r => decide (0 < r.total_participants))).map
            (fun r => r.total_participants)).sum
        weighted_obesity := acc.weighted_obesity +
          ((rows.filter (fun r => decide (0 < r.total_participants))).map
            (fun r => r.obesity_prevalence * r.total_participants)).sum
        weighted_hypertension := acc.weighted_hypertension +
          ((rows.filter (fun r => decide (0 < r.total_participants))).map
            (fun r => r.hypertension_prevalence * r.total_participants)).sum
        weighted_diabetes := acc.weighted_diabetes +
          ((rows.filter (fun r => decide (0 < r.total_participants))).map
            (fun r => r.diabetes_prevalence * r.total_participants)).sum
        weighted_smoking := acc.weighted_smoking +
          ((rows.filter (fun r => decide (0 < r.total_participants))).map
            (fun r => r.smoking_prevalence * r.total_participants)).sum } := by
  induction rows generalizing acc with
  | nil => simp [weightedLoop]
  | cons r rest ih =>
    simp only [weightedLoop, List.filter_cons, decide_eq_true_eq]
    split_ifs with h
    · rw [ih]
      simp only [List.map_cons, List.sum_cons, WeightAcc.mk.injEq]
      refine ⟨by ring, by ring, by ring, by ring, by ring⟩
    · rw [ih]

/-- C6: each cross-cohort weighted average equals
round(sum(metric_i * participants_i) / sum(participants_i), 1) taken over
exactly the sub-cohorts with positive participants (zero-participant rows are
excluded from both sums), and is absent when no sub-cohort has positive
participants; on the concrete rows (20%, 100) and (40%, 50) — with a
zero-participant row in between — the obesity average is 26.7. -/
theorem weighted_average_c6 :
    (∀ rows : List ScreeningRow,
      avg_metrics rows =
        if 0 < ((rows.filter (fun r => decide (0 < r.total_participants))).map
            (fun r => r.total_participants)).sum then
          some
            (round1 (((rows.filter (fun r => decide (0 < r.total_participants))).map
                (fun r => r.obesity_prevalence * r.total_participants)).sum /
              ((rows.filter (fun r => decide (0 < r.total_participants))).map
                (fun r => r.total_participants)).sum),
             round1 (((rows.filter (fun r => decide (0 < r.total_participants))).map
                (fun r => r.hypertension_prevalence * r.total_participants)).sum /
              ((rows.filter (fun r => decide (0 < r.total_participants))).map
                (fun r => r.total_participants)).sum),
             round1 (((rows.filter (fun r => decide (0 < r.total_participants))).map
                (fun r => r.diabetes_prevalence * r.total_participants)).sum /
              ((rows.filter (fun r => decide (0 < r.total_participants))).map
                (fun r => r.total_participants)).sum),
             round1 (((rows.filter (fun r => decide (0 < r.total_participants))).map
                (fun r => r.smoking_prevalence * r.total_participants)).sum /
              ((rows.filter (fun r => decide (0 < r.total_participants))).map
                (fun r => r.total_participants)).sum))
        else none) ∧
    avg_metrics [⟨100, 20, 30, 10, 50⟩, ⟨0, 99, 99, 99, 99⟩, ⟨50, 40, 60, 40, 80⟩] =
      some (267/10, 40, 20, 60) := by
  constructor
  · intro rows
    unfold avg_metrics
    rw [weightedLoop_eq]
    simp
  · norm_num [avg_metrics, weightedLoop, round1, rhe]

/-- C5: `dashboard_api.generate_executive_summary` does *not* degrade
gracefully on a window with no BMI-measured records: with visits present but
an empty BMI distribution, the recommendations step reads the never-assigned
local `obesity_rate` and raises NameError, instead of completing and omitting
the sentence. -/
theorem executive_summary_nameerror_c5 :
    generate_executive_summary ⟨57, 41, 12, 30⟩ [] [("Normal", 3), ("Hypertensive", 1)]
        none =
      Except.error "NameError: obesity_rate is not defined" := by
  rfl

/-- Witness for C2: on a single visit with readings 150/95 the amended formula
gives round(100 * 1 / 1, 1) = 100. -/
theorem hypertension_prevalence_c2_witness :
    (calculate_health_prevalence freshScreeningDoc
        [{ blood_pressure_systolic := some 150,
           blood_pressure_diastolic := some 95 }]).hypertension_prevalence = some 100 := by
  rw [hypertension_prevalence_c2 freshScreeningDoc]
  norm_num [List.countP_cons, List.countP_nil, isHypertensive, qtruthy, qval, round1, rhe]

/-- Witness for C3: the amended statement applied to a fresh document. -/
theorem calculate_statistics_empty_c3_witness :
    calculate_statistics freshScreeningDoc [] =
      { freshScreeningDoc with total_participants := some 0 } :=
  calculate_statistics_empty_c3 freshScreeningDoc

/-- Witness for C6: a single zero-participant sub-cohort leaves the averages
absent. -/
theorem weighted_average_c6_witness :
    avg_metrics [⟨0, 1, 2, 3, 4⟩] = none := by
  have h := weighted_average_c6.1 [⟨0, 1, 2, 3, 4⟩]
  simpa using h

/-- Witness for C8: the overall score of the empty record is the rounded mean
of its five default sub-scores, round((5+8+5+10+7)/5, 1) = 7. -/
theorem wellness_scores_c8_witness :
    (calculate_wellness_wheel_scores {}).overall = 7 := by
  have h := wellness_scores_c8.2 {}
  rw [h]
  simp only [calculate_wellness_wheel_scores, exerciseScore, sleepScore, stressScore,
    smokingScore, alcoholScore, reduceIte, reduceCtorEq, Option.some.injEq, String.reduceEq]
  norm_num [round1, rhe]

/-- Witness for C10: the bounds applied to the empty record. -/
theorem wellness_bounds_c10_witness :
    (8:ℚ)/5 ≤ (calculate_wellness_wheel_scores {}).overall ∧
      (calculate_wellness_wheel_scores {}).overall ≠ 10 :=
  ⟨(wellness_bounds_c10 {}).2.2.2.2.2.1, (wellness_bounds_c10 {}).2.2.2.2.2.2.2.1⟩
